import Mathlib

/-!
Verification development for the `whatsanuker` LLM-vetting service
(`src/llm/main.py`).

The service is embedded shallowly:

* Python/JSON values that flow through the service are modelled by `JVal`
  (`None`/`null`, booleans, integers, strings, lists, dicts as ordered
  association lists).
* `json.loads` is modelled by `json_loads`, a recursive-descent parser over
  the characters of the input, faithful to Python's `json` module on the
  fragment the service exchanges: whitespace, `null`, booleans, integer
  numbers (leading zeros rejected, as Python does), strings with the standard
  escapes, arrays and objects (duplicate keys resolved like repeated `dict`
  assignment: first position, last value).  Floating-point literals and
  surrogate-pair recombination are outside the model: a number with a
  fraction or exponent is a parse error here.  Recursion is bounded by a fuel
  parameter amply larger than the input length.
* `json.dumps` is modelled by `json_dumps` with Python's default separators
  and `ensure_ascii` escaping.
* External effects are oracle parameters: the filesystem is a map from path
  to file content, the completion backend (`litellm.completion` together with
  the `resp['choices'][0]['message']['content']` extraction) is a function
  from the two prompts to either an exception or the content string, and
  clock readings are explicit arguments.
-/

/-- JSON/Python values exchanged by the service: `null` (Python `None`),
booleans, integers, strings, arrays, and objects as ordered key/value lists
(the order of a Python `dict`). -/
inductive JVal : Type where
  | null : JVal
  | bool : Bool → JVal
  | num : Int → JVal
  | str : String → JVal
  | arr : List JVal → JVal
  | obj : List (String × JVal) → JVal

/-- Lookup of a key in an object's field list, first match (field lists are
kept duplicate-free, like Python dicts). -/
def getKey : List (String × JVal) → String → Option JVal
  | [], _ => none
  | (k2, v2) :: rest, k => if k2 = k then some v2 else getKey rest k

/-- Python `d[k] = v` on a dict: replace the value in place when the key is
present (keeping its position), otherwise append the new key at the end. -/
def setKey : List (String × JVal) → String → JVal → List (String × JVal)
  | [], k, v => [(k, v)]
  | (k2, v2) :: rest, k, v =>
    if k2 = k then (k, v) :: rest else (k2, v2) :: setKey rest k v

/-- Python `dict(pairs)` built by repeated assignment, which is how
`json.loads` materialises an object: first occurrence keeps its position,
a later duplicate overwrites the value. -/
def mkDict (pairs : List (String × JVal)) : List (String × JVal) :=
  pairs.foldl (fun d kv => setKey d kv.1 kv.2) []

/-- Python `d.get(k)` on an object value: `None` (here `JVal.null`) when the
key is absent.  Used by both handlers when building the log entry and the
response. -/
def pyGet (v : JVal) (k : String) : JVal :=
  match v with
  | .obj fields => (getKey fields k).getD .null
  | _ => .null

/-- Python `d.get(k, default)` on an object value, as in
`data.get('is_spam', False)` in `vet_message`. -/
def pyGetD (v : JVal) (k : String) (d : JVal) : JVal :=
  match v with
  | .obj fields => (getKey fields k).getD d
  | _ => d

/-- JSON whitespace skipping: space, tab, newline, carriage return, the set
Python's `json` module skips between tokens. -/
def skipWs : List Char → List Char
  | c :: rest =>
    if c = ' ' ∨ c = '\t' ∨ c = '\n' ∨ c = '\r' then skipWs rest else c :: rest
  | [] => []

/-- Value of one hexadecimal digit, for `\uXXXX` escapes. -/
def hexVal (c : Char) : Option Nat :=
  if '0' ≤ c ∧ c ≤ '9' then some (c.toNat - 48)
  else if 'a' ≤ c ∧ c ≤ 'f' then some (c.toNat - 87)
  else if 'A' ≤ c ∧ c ≤ 'F' then some (c.toNat - 55)
  else none

/-- Prepend a decoded character to the result of parsing the rest of a JSON
string body. -/
def consStr (c : Char) : Except Unit (List Char × List Char) → Except Unit (List Char × List Char)
  | .error e => .error e
  | .ok (cs, rest) => .ok (c :: cs, rest)

/-- Body of a JSON string after the opening quote: literal characters
(raw control characters rejected, as Python rejects them) and the standard
escapes.  A `\uXXXX` escape decodes to the character with that code; the
recombination of a surrogate pair into one code point is outside the model. -/
def parseStr : List Char → Except Unit (List Char × List Char)
  | [] => .error ()
  | '"' :: rest => .ok ([], rest)
  | '\\' :: '"' :: rest => consStr '"' (parseStr rest)
  | '\\' :: '\\' :: rest => consStr '\\' (parseStr rest)
  | '\\' :: '/' :: rest => consStr '/' (parseStr rest)
  | '\\' :: 'b' :: rest => consStr '\x08' (parseStr rest)
  | '\\' :: 'f' :: rest => consStr '\x0c' (parseStr rest)
  | '\\' :: 'n' :: rest => consStr '\n' (parseStr rest)
  | '\\' :: 'r' :: rest => consStr '\r' (parseStr rest)
  | '\\' :: 't' :: rest => consStr '\t' (parseStr rest)
  | '\\' :: 'u' :: a :: b :: c :: d :: rest =>
    match hexVal a, hexVal b, hexVal c, hexVal d with
    | some x, some y, some z, some w =>
      consStr (Char.ofNat (4096 * x + 256 * y + 16 * z + w)) (parseStr rest)
    | _, _, _, _ => .error ()
  | '\\' :: _ => .error ()
  | c :: rest => if c.toNat < 32 then .error () else consStr c (parseStr rest)

/-- Longest prefix of decimal digits, and the remaining input. -/
def takeDigits (s : List Char) : List Char × List Char :=
  s.span fun c => decide ('0' ≤ c) && decide (c ≤ '9')

/-- Numeric value of a digit string. -/
def digitsToNat (ds : List Char) : Nat :=
  ds.foldl (fun acc c => 10 * acc + (c.toNat - 48)) 0

/-- Unsigned integer part of a JSON number.  A leading zero followed by more
digits is rejected (as in Python's `json`); a following `.`, `e` or `E`
would begin a floating-point literal, which is outside the model and is
rejected here. -/
def parseNatPart (s : List Char) : Except Unit (Nat × List Char) :=
  match takeDigits s with
  | ([], _) => .error ()
  | ('0' :: _ :: _, _) => .error ()
  | (_, '.' :: _) => .error ()
  | (_, 'e' :: _) => .error ()
  | (_, 'E' :: _) => .error ()
  | (ds, rest) => .ok (digitsToNat ds, rest)

/-- A JSON number: optional minus sign followed by the integer part. -/
def parseNumber : List Char → Except Unit (JVal × List Char)
  | '-' :: rest =>
    match parseNatPart rest with
    | .error e => .error e
    | .ok (n, rest2) => .ok (.num (-(n : Int)), rest2)
  | s =>
    match parseNatPart s with
    | .error e => .error e
    | .ok (n, rest2) => .ok (.num (n : Int), rest2)

/-- Consume an expected literal tail, for the keywords null, true and
false. -/
def dropLit : List Char → List Char → Option (List Char)
  | [], s => some s
  | c :: cs, d :: ds => if d = c then dropLit cs ds else none
  | _ :: _, [] => none

mutual

/-- One JSON value, by recursive descent with fuel.  Mirrors the grammar
Python's `json.loads` accepts on the modelled fragment. -/
def parseVal : Nat → List Char → Except Unit (JVal × List Char)
  | 0, _ => .error ()
  | Nat.succ fuel, s =>
    match skipWs s with
    | [] => .error ()
    | c :: rest =>
      if c = 'n' then
        match dropLit ['u', 'l', 'l'] rest with
        | some rest2 => .ok (.null, rest2)
        | none => .error ()
      else if c = 't' then
        match dropLit ['r', 'u', 'e'] rest with
        | some rest2 => .ok (.bool true, rest2)
        | none => .error ()
      else if c = 'f' then
        match dropLit ['a', 'l', 's', 'e'] rest with
        | some rest2 => .ok (.bool false, rest2)
        | none => .error ()
      else if c = '"' then do
        let (cs, rest2) ← parseStr rest
        pure (.str (String.mk cs), rest2)
      else if c = '[' then
        match skipWs rest with
        | ']' :: rest2 => .ok (.arr [], rest2)
        | rest2 => do
          let (xs, rest3) ← parseElems fuel rest2
          pure (.arr xs, rest3)
      else if c = '\x7b' then
        match skipWs rest with
        | '\x7d' :: rest2 => .ok (.obj [], rest2)
        | rest2 => do
          let (pairs, rest3) ← parseMembers fuel rest2
          pure (.obj (mkDict pairs), rest3)
      else if c = '-' ∨ ('0' ≤ c ∧ c ≤ '9') then parseNumber (c :: rest)
      else .error ()

/-- Non-empty comma-separated array elements, up to the closing bracket. -/
def parseElems : Nat → List Char → Except Unit (List JVal × List Char)
  | 0, _ => .error ()
  | Nat.succ fuel, s => do
    let (v, rest) ← parseVal fuel s
    match skipWs rest with
    | ']' :: rest2 => pure ([v], rest2)
    | ',' :: rest2 => do
      let (xs, rest3) ← parseElems fuel rest2
      pure (v :: xs, rest3)
    | _ => .error ()

/-- Non-empty comma-separated object members, up to the closing brace. -/
def parseMembers : Nat → List Char → Except Unit (List (String × JVal) × List Char)
  | 0, _ => .error ()
  | Nat.succ fuel, s => do
    match skipWs s with
    | '"' :: afterQuote => do
      let (kcs, afterKey) ← parseStr afterQuote
      match skipWs afterKey with
      | ':' :: afterColon => do
        let (v, afterVal) ← parseVal fuel afterColon
        match skipWs afterVal with
        | '\x7d' :: afterBrace => pure ([(String.mk kcs, v)], afterBrace)
        | ',' :: afterComma => do
          let (pairs, afterAll) ← parseMembers fuel afterComma
          pure ((String.mk kcs, v) :: pairs, afterAll)
        | _ => .error ()
      | _ => .error ()
    | _ => .error ()

end

/-- Model of Python's `json.loads`, called by `ask_llm` on the backend's
content string: parse one value, then require only whitespace to remain.
Any failure stands for the `json.JSONDecodeError` the real call raises. -/
def json_loads (s : String) : Except Unit JVal :=
  match parseVal (2 * s.data.length + 2) s.data with
  | .error e => .error e
  | .ok (v, rest) =>
    match skipWs rest with
    | [] => .ok v
    | _ => .error ()

example : json_loads "\x7b\"decision\":\"approve\",\"reason\":\"ok\"\x7d" =
    .ok (.obj [("decision", .str "approve"), ("reason", .str "ok")]) := rfl

example : json_loads "\x7b\"is_spam\": false, \"reason\":\"clean\"\x7d" =
    .ok (.obj [("is_spam", .bool false), ("reason", .str "clean")]) := rfl

example : json_loads "[1]" = .ok (.arr [.num 1]) := rfl

example : json_loads "not json" = .error () := rfl

example : json_loads " [1, -2, \"a b\", null, true, \x7b\x7d] " =
    .ok (.arr [.num 1, .num (-2), .str "a b", .null, .bool true, .obj []]) := rfl

/-- Character for a value below 16, as in Python's hexadecimal escapes
(lowercase). -/
def hexDigitChar (n : Nat) : Char :=
  if n < 10 then Char.ofNat (48 + n) else Char.ofNat (87 + n)

/-- Four-digit hexadecimal rendering of a code below 0x10000, for `\uXXXX`
escapes produced by `json.dumps`. -/
def hex4 (n : Nat) : List Char :=
  [hexDigitChar (n / 4096 % 16), hexDigitChar (n / 256 % 16),
   hexDigitChar (n / 16 % 16), hexDigitChar (n % 16)]

/-- Escaping of one character as Python's `json.dumps` does with its default
`ensure_ascii=True`: the two-character escapes, `\uXXXX` for other control
or non-ASCII characters, a surrogate pair for characters beyond 0xFFFF, and
printable ASCII kept literally. -/
def escapeChar (c : Char) : List Char :=
  if c = '"' then ['\\', '"']
  else if c = '\\' then ['\\', '\\']
  else if c = '\n' then ['\\', 'n']
  else if c = '\r' then ['\\', 'r']
  else if c = '\t' then ['\\', 't']
  else if c = '\x08' then ['\\', 'b']
  else if c = '\x0c' then ['\\', 'f']
  else if c.toNat < 32 ∨ 127 ≤ c.toNat then
    if c.toNat < 65536 then '\\' :: 'u' :: hex4 c.toNat
    else
      '\\' :: 'u' :: hex4 (55296 + (c.toNat - 65536) / 1024) ++
        ('\\' :: 'u' :: hex4 (56320 + (c.toNat - 65536) % 1024))
  else [c]

/-- Escaping of every character of a string body. -/
def escapeChars : List Char → List Char
  | [] => []
  | c :: rest => escapeChar c ++ escapeChars rest

/-- A JSON string literal: quotes around the escaped body. -/
def dumpString (s : String) : List Char :=
  '"' :: escapeChars s.data ++ ['"']

/-- Decimal digits of a natural number, with fuel for the division
recursion. -/
def natCharsAux : Nat → Nat → List Char
  | 0, _ => []
  | Nat.succ fuel, n =>
    if n < 10 then [hexDigitChar n]
    else natCharsAux fuel (n / 10) ++ [hexDigitChar (n % 10)]

/-- Decimal digits of a natural number. -/
def natChars (n : Nat) : List Char := natCharsAux (n + 1) n

/-- Decimal rendering of an integer, with a leading minus sign when
negative. -/
def intChars (n : Int) : List Char :=
  if n < 0 then '-' :: natChars n.natAbs else natChars n.toNat

mutual

/-- Serialization of one value, as Python's `json.dumps` renders it with the
default separators (a comma and a space between items, a colon and a space
after a key). -/
def dumpVal : JVal → List Char
  | .null => "null".data
  | .bool true => "true".data
  | .bool false => "false".data
  | .num n => intChars n
  | .str s => dumpString s
  | .arr xs => '[' :: dumpElems xs ++ [']']
  | .obj fields => '\x7b' :: dumpFields fields ++ ['\x7d']

/-- Serialization of array elements, separated by a comma and a space. -/
def dumpElems : List JVal → List Char
  | [] => []
  | [x] => dumpVal x
  | x :: y :: rest => dumpVal x ++ ',' :: ' ' :: dumpElems (y :: rest)

/-- Serialization of object members, separated by a comma and a space, with
a colon and a space after each key. -/
def dumpFields : List (String × JVal) → List Char
  | [] => []
  | [(k, v)] => dumpString k ++ ':' :: ' ' :: dumpVal v
  | (k, v) :: f :: rest =>
    dumpString k ++ ':' :: ' ' :: dumpVal v ++ ',' :: ' ' :: dumpFields (f :: rest)

end

/-- Model of Python's `json.dumps` with default options, used by `log`. -/
def json_dumps (v : JVal) : String := String.mk (dumpVal v)

example : json_dumps (.obj [("a", .num (-3)), ("b", .arr [.null, .bool true]), ("c", .str "x\ny")]) =
    "\x7b\"a\": -3, \"b\": [null, true], \"c\": \"x\\ny\"\x7d" := rfl

/-- Python `int(x)`: truncation toward zero of a real (here rational)
number. -/
def pyInt (x : ℚ) : Int := if 0 ≤ x then ⌊x⌋ else ⌈x⌉

/-- The expression `int((time.time() - start) * 1000)` of `ask_llm`, with
`t0` the clock reading taken at entry (`start = time.time()`) and `t1` the
reading taken after the `try`/`except`, both in seconds. -/
def latency_of (t0 t1 : ℚ) : Int := pyInt ((t1 - t0) * 1000)

/-- The fixed mapping the `except` branch of `ask_llm` substitutes. -/
def fallbackData : JVal :=
  .obj [("decision", .str "reject"), ("reason", .str "parse error")]

/-- The `try`/`except` block of `ask_llm`.  `backendContent` stands for the
combined outcome of `litellm.completion` and the
`resp['choices'][0]['message']['content']` extraction: an exception, or the
content string.  On any exception there or in `json.loads`, the fixed
fallback mapping is substituted and the fallback flag is set. -/
def tryParse : Except Unit String → JVal × Bool
  | .error _ => (fallbackData, true)
  | .ok txt =>
    match json_loads txt with
    | .error _ => (fallbackData, true)
    | .ok v => (v, false)

/-- `ask_llm` after the `try`/`except`: the two assignments
`data['latency_ms'] = latency` and `data['fallback'] = fallback` and the
return.  When `data` is not a dict the first assignment raises a
`TypeError` outside any handler, modelled by `Except.error`.  The `latency`
argument is the value `int((time.time() - start) * 1000)`, related to the
clock readings by `latency_of`. -/
def ask_llm (backendContent : Except Unit String) (latency : Int) : Except Unit JVal :=
  match tryParse backendContent with
  | (JVal.obj fields, fallback) =>
    .ok (.obj (setKey (setKey fields "latency_ms" (.num latency)) "fallback" (.bool fallback)))
  | _ => .error ()

/-- Body of a `POST /vet_join` request. -/
structure JoinReq where
  name : String
  note : String

/-- Body of a `POST /vet_message` request. -/
structure MsgReq where
  author : String
  body : String

/-- The fixed path `pathlib.Path(__file__).parent / 'policy.md'` read by
`load_policy`, as a key into the filesystem oracle. -/
def policyPath : String := "policy.md"

/-- `load_policy`: open the fixed policy path and return the full text.
The filesystem is the oracle `fs`; a missing or unreadable file is `none`
and the `IOError` propagates unhandled, modelled by `Except.error`. -/
def load_policy (fs : String → Option String) : Except Unit String :=
  match fs policyPath with
  | some txt => .ok txt
  | none => .error ()

/-- The file name `f'llm-\x7bdatetime.date.today().isoformat()\x7d.jsonl'`
used by `log`, with `today` the process-local current date. -/
def logFileName (today : String) : String := "llm-" ++ today ++ ".jsonl"

/-- `log`: append `json.dumps(entry) + '\n'` to the day's file under the log
directory.  The log directory's files are the map `files` from name to
content; every other file is left as it was. -/
def log (files : String → String) (today : String) (entry : JVal) : String → String :=
  fun name =>
    if name = logFileName today then files name ++ json_dumps entry ++ "\n" else files name

/-- The system prompt of `vet_join`. -/
def joinSystemPrompt (policy : String) : String :=
  "Policy:\n" ++ policy ++ "\nReturn JSON with decision approve/reject and reason."

/-- The user prompt of `vet_join`. -/
def joinUserPrompt (name note : String) : String :=
  "Name: " ++ name ++ "\nNote: " ++ note

/-- The system prompt of `vet_message`. -/
def msgSystemPrompt (policy : String) : String :=
  "Policy:\n" ++ policy ++ "\nReturn JSON with is_spam true/false and reason."

/-- The user prompt of `vet_message`, built from the message body only. -/
def msgUserPrompt (body : String) : String :=
  "Message: " ++ body

/-- The `POST /vet_join` handler.  Oracles and clock readings are explicit:
`fs` the filesystem, `backend` maps the two prompts to the completion
outcome, `latency` the elapsed-milliseconds value computed inside
`ask_llm`, `ts` the value `int(time.time()*1000)` at log time, `today` the
current date, `files` the log directory.  The result is the HTTP 200
response body and the updated log directory, or `Except.error` for an
unhandled exception (HTTP 500). -/
def vet_join (fs : String → Option String)
    (backend : String → String → Except Unit String)
    (latency ts : Int) (today : String) (files : String → String)
    (req : JoinReq) : Except Unit (JVal × (String → String)) :=
  match load_policy fs with
  | .error e => .error e
  | .ok policy =>
    match ask_llm (backend (joinSystemPrompt policy) (joinUserPrompt req.name req.note)) latency with
    | .error e => .error e
    | .ok data =>
      .ok (.obj [("decision", pyGet data "decision"), ("reason", pyGet data "reason")],
        log files today (.obj [("ts", .num ts), ("type", .str "join"),
          ("contact", .str req.name), ("decision", pyGet data "decision"),
          ("reason", pyGet data "reason"), ("latency_ms", pyGet data "latency_ms"),
          ("fallback", pyGet data "fallback")]))

/-- The `POST /vet_message` handler, with the same oracle parameters as
`vet_join`.  The log entry's decision field is `data.get('is_spam')`
(no default), while the response's `is_spam` is
`data.get('is_spam', False)`. -/
def vet_message (fs : String → Option String)
    (backend : String → String → Except Unit String)
    (latency ts : Int) (today : String) (files : String → String)
    (req : MsgReq) : Except Unit (JVal × (String → String)) :=
  match load_policy fs with
  | .error e => .error e
  | .ok policy =>
    match ask_llm (backend (msgSystemPrompt policy) (msgUserPrompt req.body)) latency with
    | .error e => .error e
    | .ok data =>
      .ok (.obj [("is_spam", pyGetD data "is_spam" (.bool false)), ("reason", pyGet data "reason")],
        log files today (.obj [("ts", .num ts), ("type", .str "message"),
          ("contact", .str req.author), ("decision", pyGet data "is_spam"),
          ("reason", pyGet data "reason"), ("latency_ms", pyGet data "latency_ms"),
          ("fallback", pyGet data "fallback")]))

example : ask_llm (.ok "\x7b\"decision\":\"approve\",\"reason\":\"ok\"\x7d") 7 =
    .ok (.obj [("decision", .str "approve"), ("reason", .str "ok"),
      ("latency_ms", .num 7), ("fallback", .bool false)]) := rfl

example : ask_llm (.error ()) 7 =
    .ok (.obj [("decision", .str "reject"), ("reason", .str "parse error"),
      ("latency_ms", .num 7), ("fallback", .bool true)]) := rfl

example : ask_llm (.ok "[1]") 7 = .error () := rfl

example :
    vet_join (fun _ => some "P") (fun _ _ => .ok "\x7b\"decision\":\"approve\",\"reason\":\"ok\"\x7d")
      7 9 "2026-10-12" (fun _ => "") ⟨"John Doe", "Agentics"⟩ =
    .ok (.obj [("decision", .str "approve"), ("reason", .str "ok")],
      log (fun _ => "") "2026-10-12"
        (.obj [("ts", .num 9), ("type", .str "join"), ("contact", .str "John Doe"),
          ("decision", .str "approve"), ("reason", .str "ok"),
          ("latency_ms", .num 7), ("fallback", .bool false)])) := rfl

theorem getKey_setKey_self (fields : List (String × JVal)) (k : String) (v : JVal) :
    getKey (setKey fields k v) k = some v := by
  induction fields with
  | nil => simp [setKey, getKey]
  | cons hd tl ih =>
    obtain ⟨k2, v2⟩ := hd
    by_cases h : k2 = k
    · simp [setKey, getKey, h]
    · simp [setKey, getKey, h, ih]

theorem getKey_setKey_ne (fields : List (String × JVal)) (k k2 : String) (v : JVal)
    (h : k ≠ k2) : getKey (setKey fields k v) k2 = getKey fields k2 := by
  induction fields with
  | nil => simp [setKey, getKey, h]
  | cons hd tl ih =>
    obtain ⟨k3, v3⟩ := hd
    by_cases h3 : k3 = k
    · subst h3
      simp [setKey, getKey, h]
    · by_cases h4 : k3 = k2
      · simp [setKey, getKey, h3, h4, Ne.symm h]
      · simp [setKey, getKey, h3, h4, ih]

/-- The two assignments at the end of `ask_llm` leave every returned mapping
with a `latency_ms` key holding the latency and a `fallback` key holding the
flag, whatever keys the parsed mapping already had. -/
theorem getKey_after_assignments (fields : List (String × JVal)) (latency : Int) (b : Bool) :
    getKey (setKey (setKey fields "latency_ms" (.num latency)) "fallback" (.bool b)) "latency_ms"
      = some (.num latency)
    ∧ getKey (setKey (setKey fields "latency_ms" (.num latency)) "fallback" (.bool b)) "fallback"
      = some (.bool b) := by
  constructor
  · rw [getKey_setKey_ne _ _ _ _ (by decide)]
    exact getKey_setKey_self _ _ _
  · exact getKey_setKey_self _ _ _

theorem hexDigitChar_ne_nl (n : Nat) (h : n < 16) : hexDigitChar n ≠ '\n' := by
  interval_cases n <;> decide

theorem nl_not_in_hex4 (n : Nat) : '\n' ∉ hex4 n := by
  simp only [hex4, List.mem_cons, List.not_mem_nil, or_false]
  push_neg
  refine ⟨?_, ?_, ?_, ?_⟩ <;>
    exact fun h => hexDigitChar_ne_nl _ (Nat.mod_lt _ (by norm_num)) h.symm

theorem nl_not_in_escapeChar (c : Char) : '\n' ∉ escapeChar c := by
  unfold escapeChar
  split_ifs with h1 h2 h3 h4 h5 h6 h7 h8 h9
  · decide
  · decide
  · decide
  · decide
  · decide
  · decide
  · decide
  · simp only [List.mem_cons, List.not_mem_nil, or_false]
    push_neg
    refine ⟨by decide, by decide, ?_⟩
    exact fun h => nl_not_in_hex4 _ h
  · simp only [List.mem_append, List.mem_cons, List.not_mem_nil, or_false]
    push_neg
    refine ⟨⟨by decide, by decide, fun h => nl_not_in_hex4 _ h⟩,
      by decide, by decide, fun h => nl_not_in_hex4 _ h⟩
  · simp only [List.mem_cons, List.not_mem_nil, or_false]
    intro h
    rw [← h] at h8
    exact h8 (Or.inl (by decide))

theorem nl_not_in_escapeChars (cs : List Char) : '\n' ∉ escapeChars cs := by
  induction cs with
  | nil => simp [escapeChars]
  | cons c rest ih =>
    simp only [escapeChars, List.mem_append]
    push_neg
    exact ⟨nl_not_in_escapeChar c, ih⟩

theorem nl_not_in_dumpString (s : String) : '\n' ∉ dumpString s := by
  have h := nl_not_in_escapeChars s.data
  simp only [dumpString, List.mem_cons, List.mem_append, List.mem_singleton]
  intro hc
  rcases hc with (hc | hc) | hc
  · exact absurd hc (by decide)
  · exact h hc
  · exact absurd hc (by decide)

theorem nl_not_in_natCharsAux (fuel n : Nat) : '\n' ∉ natCharsAux fuel n := by
  induction fuel generalizing n with
  | zero => simp [natCharsAux]
  | succ fuel ih =>
    unfold natCharsAux
    split_ifs with h
    · simp only [List.mem_cons, List.not_mem_nil, or_false]
      exact fun hc => hexDigitChar_ne_nl n (lt_trans h (by norm_num)) hc.symm
    · simp only [List.mem_append, List.mem_cons, List.not_mem_nil, or_false]
      push_neg
      exact ⟨ih (n / 10),
        fun hc => hexDigitChar_ne_nl (n % 10)
          (lt_trans (Nat.mod_lt _ (by norm_num)) (by norm_num)) hc.symm⟩

theorem nl_not_in_intChars (n : Int) : '\n' ∉ intChars n := by
  unfold intChars
  split_ifs with h
  · simp only [List.mem_cons]
    push_neg
    exact ⟨by decide, nl_not_in_natCharsAux _ _⟩
  · exact nl_not_in_natCharsAux _ _

mutual

/-- `json.dumps` output never contains a raw newline: every value renders to
a single line, so `log` appends exactly one line per entry. -/
theorem nl_not_in_dumpVal : ∀ v : JVal, '\n' ∉ dumpVal v
  | .null => by decide
  | .bool true => by decide
  | .bool false => by decide
  | .num n => nl_not_in_intChars n
  | .str s => nl_not_in_dumpString s
  | .arr xs => by
    have h := nl_not_in_dumpElems xs
    simp only [dumpVal, List.mem_cons, List.mem_append, List.mem_singleton]
    intro hc
    rcases hc with (hc | hc) | hc
    · exact absurd hc (by decide)
    · exact h hc
    · exact absurd hc (by decide)
  | .obj fields => by
    have h := nl_not_in_dumpFields fields
    simp only [dumpVal, List.mem_cons, List.mem_append, List.mem_singleton]
    intro hc
    rcases hc with (hc | hc) | hc
    · exact absurd hc (by decide)
    · exact h hc
    · exact absurd hc (by decide)

theorem nl_not_in_dumpElems : ∀ xs : List JVal, '\n' ∉ dumpElems xs
  | [] => by simp [dumpElems]
  | [x] => by simpa [dumpElems] using nl_not_in_dumpVal x
  | x :: y :: rest => by
    have h1 := nl_not_in_dumpVal x
    have h2 := nl_not_in_dumpElems (y :: rest)
    simp only [dumpElems, List.mem_append, List.mem_cons]
    intro hc
    rcases hc with hc | hc | hc | hc
    · exact h1 hc
    · exact absurd hc (by decide)
    · exact absurd hc (by decide)
    · exact h2 hc

theorem nl_not_in_dumpFields : ∀ fields : List (String × JVal), '\n' ∉ dumpFields fields
  | [] => by simp [dumpFields]
  | [(k, v)] => by
    have h1 := nl_not_in_dumpString k
    have h2 := nl_not_in_dumpVal v
    simp only [dumpFields, List.mem_append, List.mem_cons]
    intro hc
    rcases hc with hc | hc | hc | hc
    · exact h1 hc
    · exact absurd hc (by decide)
    · exact absurd hc (by decide)
    · exact h2 hc
  | (k, v) :: f :: rest => by
    have h1 := nl_not_in_dumpString k
    have h2 := nl_not_in_dumpVal v
    have h3 := nl_not_in_dumpFields (f :: rest)
    simp only [dumpFields, List.mem_append, List.mem_cons]
    intro hc
    rcases hc with (hc | hc | hc | hc) | hc | hc | hc
    · exact h1 hc
    · exact absurd hc (by decide)
    · exact absurd hc (by decide)
    · exact h2 hc
    · exact absurd hc (by decide)
    · exact absurd hc (by decide)
    · exact h3 hc

end

/-- The serialized form of any entry is newline-free. -/
theorem nl_not_in_json_dumps (v : JVal) : '\n' ∉ (json_dumps v).data :=
  nl_not_in_dumpVal v

/-- When the completion call or the content extraction raises, `ask_llm`
returns the fallback mapping with the latency and fallback keys attached. -/
theorem ask_llm_exception (latency : Int) :
    ask_llm (.error ()) latency =
      .ok (.obj [("decision", .str "reject"), ("reason", .str "parse error"),
        ("latency_ms", .num latency), ("fallback", .bool true)]) := rfl

/-- When the content does not parse as JSON, `ask_llm` returns the fallback
mapping with the latency and fallback keys attached. -/
theorem ask_llm_parse_error (txt : String) (latency : Int)
    (hparse : json_loads txt = .error ()) :
    ask_llm (.ok txt) latency =
      .ok (.obj [("decision", .str "reject"), ("reason", .str "parse error"),
        ("latency_ms", .num latency), ("fallback", .bool true)]) := by
  simp only [ask_llm, tryParse, hparse]
  rfl

/-- When the content parses to an object, `ask_llm` returns that object with
the two assignments applied and the fallback flag false. -/
theorem ask_llm_success (txt : String) (fields : List (String × JVal)) (latency : Int)
    (hparse : json_loads txt = .ok (.obj fields)) :
    ask_llm (.ok txt) latency =
      .ok (.obj (setKey (setKey fields "latency_ms" (.num latency)) "fallback" (.bool false))) := by
  simp only [ask_llm, tryParse, hparse]

/-- When the content parses to a non-object JSON value, the assignment
`data['latency_ms'] = latency` raises a `TypeError` outside the handler and
`ask_llm` propagates it. -/
theorem ask_llm_non_obj (txt : String) (latency : Int) (w : JVal)
    (hparse : json_loads txt = .ok w) (hw : ∀ fields, w ≠ .obj fields) :
    ask_llm (.ok txt) latency = .error () := by
  simp only [ask_llm, tryParse, hparse]
  cases w with
  | obj fields => exact absurd rfl (hw fields)
  | null => rfl
  | bool b => rfl
  | num n => rfl
  | str s => rfl
  | arr xs => rfl

/-- Every mapping `ask_llm` returns carries the computed latency under
`latency_ms`, and carries `fallback = false` exactly when the backend call
and the JSON parse both succeeded. -/
theorem ask_llm_keys (backendContent : Except Unit String) (latency : Int) (v : JVal)
    (hv : ask_llm backendContent latency = .ok v) :
    pyGet v "latency_ms" = .num latency
    ∧ (pyGet v "fallback" = .bool false ↔
        ∃ txt w, backendContent = .ok txt ∧ json_loads txt = .ok w) := by
  cases backendContent with
  | error e =>
    cases e
    rw [ask_llm_exception latency, Except.ok.injEq] at hv
    subst hv
    refine ⟨rfl, ?_⟩
    constructor
    · intro h
      exact absurd h (by simp [pyGet, getKey])
    · rintro ⟨txt, w, hok, _⟩
      exact absurd hok (by simp)
  | ok txt =>
    cases hparse : json_loads txt with
    | error e2 =>
      cases e2
      rw [ask_llm_parse_error txt latency hparse, Except.ok.injEq] at hv
      subst hv
      refine ⟨rfl, ?_⟩
      constructor
      · intro h
        exact absurd h (by simp [pyGet, getKey])
      · rintro ⟨txt2, w, hok, hw⟩
        rw [Except.ok.injEq] at hok
        subst hok
        rw [hparse] at hw
        exact absurd hw (by simp)
    | ok w =>
      cases hobj : w with
      | obj fields =>
        subst hobj
        rw [ask_llm_success txt fields latency hparse, Except.ok.injEq] at hv
        subst hv
        have hkeys := getKey_after_assignments fields latency false
        refine ⟨by simp [pyGet, hkeys.1], ?_⟩
        constructor
        · intro _
          exact ⟨txt, .obj fields, rfl, hparse⟩
        · intro _
          simp [pyGet, hkeys.2]
      | null =>
        subst hobj
        rw [ask_llm_non_obj txt latency _ hparse (by intro fields h; exact JVal.noConfusion h)] at hv
        exact absurd hv (by simp)
      | bool b =>
        subst hobj
        rw [ask_llm_non_obj txt latency _ hparse (by intro fields h; exact JVal.noConfusion h)] at hv
        exact absurd hv (by simp)
      | num n =>
        subst hobj
        rw [ask_llm_non_obj txt latency _ hparse (by intro fields h; exact JVal.noConfusion h)] at hv
        exact absurd hv (by simp)
      | str s =>
        subst hobj
        rw [ask_llm_non_obj txt latency _ hparse (by intro fields h; exact JVal.noConfusion h)] at hv
        exact absurd hv (by simp)
      | arr xs =>
        subst hobj
        rw [ask_llm_non_obj txt latency _ hparse (by intro fields h; exact JVal.noConfusion h)] at hv
        exact absurd hv (by simp)

/-- C1: for every system and user prompt (the prompts determine only the
backend outcome, which is quantified here), if any exception is raised
during the completion-backend call or the JSON parsing of its first
choice's content, `ask_llm` does not propagate the exception and returns a
mapping whose decision is "reject", whose reason is "parse error", and
whose fallback flag is true; if no exception is raised and parsing succeeds
with a mapping, the parsed mapping is returned (with the latency and
fallback keys attached) with fallback false. -/
theorem C1_ask_llm_fallback_and_success (backendContent : Except Unit String) (latency : Int) :
    ((backendContent = .error ()
        ∨ ∃ txt, backendContent = .ok txt ∧ json_loads txt = .error ()) →
      ask_llm backendContent latency =
        .ok (.obj [("decision", .str "reject"), ("reason", .str "parse error"),
          ("latency_ms", .num latency), ("fallback", .bool true)]))
    ∧ (∀ txt fields, backendContent = .ok txt → json_loads txt = .ok (.obj fields) →
      ask_llm backendContent latency =
        .ok (.obj (setKey (setKey fields "latency_ms" (.num latency)) "fallback" (.bool false)))
      ∧ getKey (setKey (setKey fields "latency_ms" (.num latency)) "fallback" (.bool false))
          "fallback" = some (.bool false)) := by
  constructor
  · rintro (h | ⟨txt, hok, hparse⟩)
    · rw [h]
      exact ask_llm_exception latency
    · rw [hok]
      exact ask_llm_parse_error txt latency hparse
  · intro txt fields hok hparse
    rw [hok]
    exact ⟨ask_llm_success txt fields latency hparse,
      (getKey_after_assignments fields latency false).2⟩

/-- Witness for C1 at concrete inputs: a failing backend yields the
fallback mapping, and a backend answering a concrete JSON object yields the
parsed mapping with fallback false. -/
theorem C1_witness :
    ask_llm (.error ()) 3 =
      .ok (.obj [("decision", .str "reject"), ("reason", .str "parse error"),
        ("latency_ms", .num 3), ("fallback", .bool true)])
    ∧ ask_llm (.ok "\x7b\"a\":1\x7d") 3 =
      .ok (.obj (setKey (setKey [("a", .num 1)] "latency_ms" (.num 3)) "fallback" (.bool false))) :=
  ⟨(C1_ask_llm_fallback_and_success (.error ()) 3).1 (Or.inl rfl),
   ((C1_ask_llm_fallback_and_success (.ok "\x7b\"a\":1\x7d") 3).2 "\x7b\"a\":1\x7d"
      [("a", .num 1)] rfl rfl).1⟩

/-- C10: `ask_llm` unconditionally writes the `latency_ms` and `fallback`
keys into the result after the `try`/`except`, overwriting any same-named
keys present in the model's parsed JSON; the fallback key of the returned
mapping is false exactly when the backend call and JSON parse succeeded. -/
theorem C10_ask_llm_overwrites (backendContent : Except Unit String) (latency : Int) (v : JVal)
    (hv : ask_llm backendContent latency = .ok v) :
    pyGet v "latency_ms" = .num latency
    ∧ (pyGet v "fallback" = .bool false ↔
        ∃ txt w, backendContent = .ok txt ∧ json_loads txt = .ok w) :=
  ask_llm_keys backendContent latency v hv

/-- Witness for C10 at a concrete input whose model output already carries
`latency_ms` and `fallback` keys: both are overwritten. -/
theorem C10_witness :
    pyGet (.obj [("latency_ms", .num 9), ("fallback", .bool false)]) "latency_ms" = .num 9
    ∧ (pyGet (.obj [("latency_ms", .num 9), ("fallback", .bool false)]) "fallback" = .bool false ↔
        ∃ txt w, (Except.ok "\x7b\"latency_ms\":777,\"fallback\":true\x7d" :
            Except Unit String) = .ok txt ∧ json_loads txt = .ok w) :=
  C10_ask_llm_overwrites (.ok "\x7b\"latency_ms\":777,\"fallback\":true\x7d") 9
    (.obj [("latency_ms", .num 9), ("fallback", .bool false)]) rfl

/-- C6: the value attached as `latency_ms` is the elapsed wall-clock time
in integer milliseconds between the clock reading taken just before the
completion-backend call and the one taken after the branch completes
(policy loading and logging are outside the two readings); it is
non-negative whenever the clock does not step backwards, and it is present
in every mapping `ask_llm` returns, in the success branch and in the
fallback branch alike. -/
theorem C6_latency_nonneg_attached (t0 t1 : ℚ) (backendContent : Except Unit String) (v : JVal)
    (hclock : t0 ≤ t1) (hv : ask_llm backendContent (latency_of t0 t1) = .ok v) :
    0 ≤ latency_of t0 t1 ∧ pyGet v "latency_ms" = .num (latency_of t0 t1) := by
  constructor
  · have h1 : (0 : ℚ) ≤ (t1 - t0) * 1000 := by
      have h2 := sub_nonneg.mpr hclock
      positivity
    unfold latency_of pyInt
    rw [if_pos h1]
    exact Int.floor_nonneg.mpr h1
  · exact (ask_llm_keys backendContent (latency_of t0 t1) v hv).1

/-- Witness for C6 at concrete clock readings (an elapsed 1.5 seconds) on
the fallback branch. -/
theorem C6_witness :
    0 ≤ latency_of 0 (3 / 2)
    ∧ pyGet (.obj [("decision", .str "reject"), ("reason", .str "parse error"),
        ("latency_ms", .num (latency_of 0 (3 / 2))), ("fallback", .bool true)])
        "latency_ms" = .num (latency_of 0 (3 / 2)) :=
  C6_latency_nonneg_attached 0 (3 / 2) (.error ())
    (.obj [("decision", .str "reject"), ("reason", .str "parse error"),
      ("latency_ms", .num (latency_of 0 (3 / 2))), ("fallback", .bool true)])
    (by norm_num) rfl

/-- C2 counterexample: with a backend that raises, `/vet_join` still
responds 200, but the response's decision is the fallback mapping's
"reject", not null as the claim states. -/
theorem C2_counterexample :
    vet_join (fun _ => some "P") (fun _ _ => .error ()) 0 5 "2026-10-12" (fun _ => "")
        ⟨"alice", "hi"⟩ =
      .ok (.obj [("decision", .str "reject"), ("reason", .str "parse error")],
        log (fun _ => "") "2026-10-12" (.obj [("ts", .num 5), ("type", .str "join"),
          ("contact", .str "alice"), ("decision", .str "reject"),
          ("reason", .str "parse error"), ("latency_ms", .num 0), ("fallback", .bool true)]))
    ∧ JVal.str "reject" ≠ JVal.null :=
  ⟨rfl, fun h => JVal.noConfusion h⟩

/-- C2 (amended): for every valid request, if the completion backend raises
any error or returns non-JSON content, both `/vet_join` and `/vet_message`
respond HTTP 200, the logged entry has fallback true and reason
"parse error", the `/vet_join` response has decision "reject" (the fallback
mapping's value, not null), and the `/vet_message` response has `is_spam`
false (defaulted, the fallback mapping lacking that key). -/
theorem C2_amended_fallback_responses (fs : String → Option String) (policy : String)
    (backend : String → String → Except Unit String) (latency ts : Int)
    (today : String) (files : String → String) (jr : JoinReq) (mr : MsgReq)
    (hfs : fs policyPath = some policy)
    (hb : ∀ s u, backend s u = .error ()
        ∨ ∃ txt, backend s u = .ok txt ∧ json_loads txt = .error ()) :
    vet_join fs backend latency ts today files jr =
      .ok (.obj [("decision", .str "reject"), ("reason", .str "parse error")],
        log files today (.obj [("ts", .num ts), ("type", .str "join"),
          ("contact", .str jr.name), ("decision", .str "reject"),
          ("reason", .str "parse error"), ("latency_ms", .num latency),
          ("fallback", .bool true)]))
    ∧ vet_message fs backend latency ts today files mr =
      .ok (.obj [("is_spam", .bool false), ("reason", .str "parse error")],
        log files today (.obj [("ts", .num ts), ("type", .str "message"),
          ("contact", .str mr.author), ("decision", JVal.null),
          ("reason", .str "parse error"), ("latency_ms", .num latency),
          ("fallback", .bool true)])) := by
  have hlp : load_policy fs = .ok policy := by simp [load_policy, hfs]
  have hask : ∀ s u, ask_llm (backend s u) latency =
      .ok (.obj [("decision", .str "reject"), ("reason", .str "parse error"),
        ("latency_ms", .num latency), ("fallback", .bool true)]) := by
    intro s u
    rcases hb s u with h | ⟨txt, hok, hparse⟩
    · rw [h]
      exact ask_llm_exception latency
    · rw [hok]
      exact ask_llm_parse_error txt latency hparse
  constructor
  · simp only [vet_join, hlp, hask]
    rfl
  · simp only [vet_message, hlp, hask]
    rfl

/-- Witness for C2 at a concrete failing backend: the `/vet_join` half of
the amended claim, fully instantiated. -/
theorem C2_witness :
    vet_join (fun _ => some "P") (fun _ _ => .error ()) 2 5 "2026-10-12" (fun _ => "")
        ⟨"alice", "hi"⟩ =
      .ok (.obj [("decision", .str "reject"), ("reason", .str "parse error")],
        log (fun _ => "") "2026-10-12" (.obj [("ts", .num 5), ("type", .str "join"),
          ("contact", .str "alice"), ("decision", .str "reject"),
          ("reason", .str "parse error"), ("latency_ms", .num 2),
          ("fallback", .bool true)])) :=
  (C2_amended_fallback_responses (fun _ => some "P") "P" (fun _ _ => .error ()) 2 5
    "2026-10-12" (fun _ => "") ⟨"alice", "hi"⟩ ⟨"bob", "hello"⟩ rfl
    (fun _ _ => Or.inl rfl)).1

/-- C3: for every valid JoinRequest, if the completion backend returns a
response whose first choice's content is the JSON text
`\x7b"decision":"approve","reason":"ok"\x7d`, then `/vet_join` responds
HTTP 200 with body `\x7b"decision":"approve","reason":"ok"\x7d` and appends
exactly one log line - the serialization is newline-free - whose type is
"join" and whose fallback is false. -/
theorem C3_vet_join_approve (fs : String → Option String) (policy : String)
    (backend : String → String → Except Unit String) (latency ts : Int)
    (today : String) (files : String → String) (jr : JoinReq)
    (hfs : fs policyPath = some policy)
    (hb : backend (joinSystemPrompt policy) (joinUserPrompt jr.name jr.note) =
      .ok "\x7b\"decision\":\"approve\",\"reason\":\"ok\"\x7d") :
    vet_join fs backend latency ts today files jr =
      .ok (.obj [("decision", .str "approve"), ("reason", .str "ok")],
        log files today (.obj [("ts", .num ts), ("type", .str "join"),
          ("contact", .str jr.name), ("decision", .str "approve"), ("reason", .str "ok"),
          ("latency_ms", .num latency), ("fallback", .bool false)]))
    ∧ log files today (.obj [("ts", .num ts), ("type", .str "join"),
          ("contact", .str jr.name), ("decision", .str "approve"), ("reason", .str "ok"),
          ("latency_ms", .num latency), ("fallback", .bool false)]) (logFileName today)
        = files (logFileName today)
          ++ json_dumps (.obj [("ts", .num ts), ("type", .str "join"),
              ("contact", .str jr.name), ("decision", .str "approve"), ("reason", .str "ok"),
              ("latency_ms", .num latency), ("fallback", .bool false)]) ++ "\n"
    ∧ '\n' ∉ (json_dumps (.obj [("ts", .num ts), ("type", .str "join"),
          ("contact", .str jr.name), ("decision", .str "approve"), ("reason", .str "ok"),
          ("latency_ms", .num latency), ("fallback", .bool false)])).data := by
  have hlp : load_policy fs = .ok policy := by simp [load_policy, hfs]
  have hask : ask_llm (backend (joinSystemPrompt policy) (joinUserPrompt jr.name jr.note))
      latency
      = .ok (.obj [("decision", .str "approve"), ("reason", .str "ok"),
          ("latency_ms", .num latency), ("fallback", .bool false)]) := by
    rw [hb]
    exact ask_llm_success _ [("decision", .str "approve"), ("reason", .str "ok")] latency rfl
  refine ⟨?_, by simp [log], nl_not_in_json_dumps _⟩
  simp only [vet_join, hlp, hask]
  rfl

/-- Witness for C3 at the repository test's concrete input. -/
theorem C3_witness :
    vet_join (fun _ => some "P")
        (fun _ _ => .ok "\x7b\"decision\":\"approve\",\"reason\":\"ok\"\x7d")
        4 9 "2026-10-12" (fun _ => "") ⟨"John Doe", "Agentics"⟩ =
      .ok (.obj [("decision", .str "approve"), ("reason", .str "ok")],
        log (fun _ => "") "2026-10-12" (.obj [("ts", .num 9), ("type", .str "join"),
          ("contact", .str "John Doe"), ("decision", .str "approve"), ("reason", .str "ok"),
          ("latency_ms", .num 4), ("fallback", .bool false)])) :=
  (C3_vet_join_approve (fun _ => some "P") "P"
    (fun _ _ => .ok "\x7b\"decision\":\"approve\",\"reason\":\"ok\"\x7d")
    4 9 "2026-10-12" (fun _ => "") ⟨"John Doe", "Agentics"⟩ rfl rfl).1

/-- C5: for every valid MessageRequest, `/vet_message` consults the backend
with a user prompt formatted from the message body only, writes a log entry
whose contact is the author and whose decision field is the verdict's
`is_spam` value without defaulting (null when absent), and responds with
is_spam and reason, where is_spam defaults to false exactly when the key is
absent from the verdict and reason is taken verbatim (null if absent). -/
theorem C5_vet_message_shape (fs : String → Option String) (policy : String)
    (backend : String → String → Except Unit String) (latency ts : Int)
    (today : String) (files : String → String) (mr : MsgReq) (data : JVal)
    (hfs : fs policyPath = some policy)
    (hask : ask_llm (backend (msgSystemPrompt policy) (msgUserPrompt mr.body)) latency
      = .ok data) :
    vet_message fs backend latency ts today files mr =
      .ok (.obj [("is_spam", pyGetD data "is_spam" (.bool false)),
          ("reason", pyGet data "reason")],
        log files today (.obj [("ts", .num ts), ("type", .str "message"),
          ("contact", .str mr.author), ("decision", pyGet data "is_spam"),
          ("reason", pyGet data "reason"), ("latency_ms", pyGet data "latency_ms"),
          ("fallback", pyGet data "fallback")]))
    ∧ msgUserPrompt mr.body = "Message: " ++ mr.body
    ∧ (∀ fields, data = .obj fields →
        (getKey fields "is_spam" = none →
          pyGetD data "is_spam" (.bool false) = .bool false ∧ pyGet data "is_spam" = .null)
        ∧ (∀ w, getKey fields "is_spam" = some w →
          pyGetD data "is_spam" (.bool false) = w ∧ pyGet data "is_spam" = w)) := by
  have hlp : load_policy fs = .ok policy := by simp [load_policy, hfs]
  refine ⟨?_, rfl, ?_⟩
  · simp only [vet_message, hlp, hask]
  · rintro fields rfl
    constructor
    · intro hnone
      simp [pyGetD, pyGet, hnone]
    · intro w hw
      simp [pyGetD, pyGet, hw]

/-- Witness for C5 at the repository test's concrete input, with a backend
answering a clean-message verdict. -/
theorem C5_witness :
    vet_message (fun _ => some "P")
        (fun _ _ => .ok "\x7b\"is_spam\": false, \"reason\":\"clean\"\x7d")
        4 9 "2026-10-12" (fun _ => "") ⟨"123", "hello"⟩ =
      .ok (.obj [("is_spam", pyGetD (.obj [("is_spam", .bool false), ("reason", .str "clean"),
            ("latency_ms", .num 4), ("fallback", .bool false)]) "is_spam" (.bool false)),
          ("reason", pyGet (.obj [("is_spam", .bool false), ("reason", .str "clean"),
            ("latency_ms", .num 4), ("fallback", .bool false)]) "reason")],
        log (fun _ => "") "2026-10-12" (.obj [("ts", .num 9), ("type", .str "message"),
          ("contact", .str "123"),
          ("decision", pyGet (.obj [("is_spam", .bool false), ("reason", .str "clean"),
            ("latency_ms", .num 4), ("fallback", .bool false)]) "is_spam"),
          ("reason", pyGet (.obj [("is_spam", .bool false), ("reason", .str "clean"),
            ("latency_ms", .num 4), ("fallback", .bool false)]) "reason"),
          ("latency_ms", pyGet (.obj [("is_spam", .bool false), ("reason", .str "clean"),
            ("latency_ms", .num 4), ("fallback", .bool false)]) "latency_ms"),
          ("fallback", pyGet (.obj [("is_spam", .bool false), ("reason", .str "clean"),
            ("latency_ms", .num 4), ("fallback", .bool false)]) "fallback")])) :=
  (C5_vet_message_shape (fun _ => some "P") "P"
    (fun _ _ => .ok "\x7b\"is_spam\": false, \"reason\":\"clean\"\x7d")
    4 9 "2026-10-12" (fun _ => "") ⟨"123", "hello"⟩
    (.obj [("is_spam", .bool false), ("reason", .str "clean"),
      ("latency_ms", .num 4), ("fallback", .bool false)]) rfl rfl).1

/-- C7: `load_policy` reads the fixed policy path on every call - its result
is determined by the file's current content at that one path - and returns
the file's full text; if the file is absent or unreadable, the I/O error
propagates unhandled to the caller of either handler, with no recovery
logic, observed as a server error. -/
theorem C7_load_policy_behavior (fs fs2 : String → Option String) (txt : String)
    (backend : String → String → Except Unit String) (latency ts : Int)
    (today : String) (files : String → String) (jr : JoinReq) (mr : MsgReq) :
    (fs policyPath = some txt → load_policy fs = .ok txt)
    ∧ (fs policyPath = fs2 policyPath → load_policy fs = load_policy fs2)
    ∧ (fs policyPath = none →
        load_policy fs = .error ()
        ∧ vet_join fs backend latency ts today files jr = .error ()
        ∧ vet_message fs backend latency ts today files mr = .error ()) := by
  refine ⟨fun h => by simp [load_policy, h], fun h => by simp [load_policy, h], fun h => ?_⟩
  have hlp : load_policy fs = .error () := by simp [load_policy, h]
  exact ⟨hlp, by simp [vet_join, hlp], by simp [vet_message, hlp]⟩

/-- Witness for C7 at a concrete filesystem with the policy file missing:
both handlers propagate the error. -/
theorem C7_witness :
    load_policy (fun _ => none) = .error ()
    ∧ vet_join (fun _ => none) (fun _ _ => .ok "x") 0 0 "2026-10-12" (fun _ => "")
        ⟨"a", "b"⟩ = .error ()
    ∧ vet_message (fun _ => none) (fun _ _ => .ok "x") 0 0 "2026-10-12" (fun _ => "")
        ⟨"a", "b"⟩ = .error () :=
  (C7_load_policy_behavior (fun _ => none) (fun _ => none) "t" (fun _ _ => .ok "x")
    0 0 "2026-10-12" (fun _ => "") ⟨"a", "b"⟩ ⟨"a", "b"⟩).2.2 rfl

/-- Character data of the day's log file after one `log` call: the old
content followed by the serialized entry and a newline. -/
theorem log_data_eq (files : String → String) (today : String) (entry : JVal) :
    (log files today entry (logFileName today)).data
      = (files (logFileName today)).data ++ ((json_dumps entry).data ++ ['\n']) := by
  show (if logFileName today = logFileName today then
      files (logFileName today) ++ json_dumps entry ++ "\n"
    else files (logFileName today)).data = _
  rw [if_pos rfl, String.data_append, String.data_append, List.append_assoc]

/-- One `log` call adds exactly one newline to the day's file, keeps the old
content as a prefix, and changes no other file. -/
theorem log_appends_one_line (files : String → String) (today : String) (entry : JVal) :
    (log files today entry (logFileName today)).data.count '\n'
      = (files (logFileName today)).data.count '\n' + 1
    ∧ (log files today entry (logFileName today)).data.take
        (files (logFileName today)).data.length = (files (logFileName today)).data
    ∧ ∀ name, name ≠ logFileName today → log files today entry name = files name := by
  have hdata := log_data_eq files today entry
  refine ⟨?_, ?_, fun name hn => by simp [log, hn]⟩
  · rw [hdata, List.count_append, List.count_append,
      List.count_eq_zero.mpr (nl_not_in_json_dumps entry)]
    simp
  · rw [hdata]
    exact List.take_left _ _

/-- C8: for every entry, `log` serializes the entry as a single JSON line -
the serialization is newline-free - and appends it followed by a newline to
the file named llm-<ISO-date>.jsonl under the log directory, where the date
is the process-local current calendar date at log time; appending leaves
all previously written content of the file in place as a prefix and every
other file untouched. -/
theorem C8_log_appends (files : String → String) (today : String) (entry : JVal) :
    logFileName today = "llm-" ++ today ++ ".jsonl"
    ∧ log files today entry (logFileName today)
        = files (logFileName today) ++ json_dumps entry ++ "\n"
    ∧ '\n' ∉ (json_dumps entry).data
    ∧ (log files today entry (logFileName today)).data.take
        (files (logFileName today)).data.length = (files (logFileName today)).data
    ∧ (∀ name, name ≠ logFileName today → log files today entry name = files name) :=
  ⟨rfl, by simp [log], nl_not_in_json_dumps entry,
    (log_appends_one_line files today entry).2.1,
    (log_appends_one_line files today entry).2.2⟩

/-- Witness for C8 at a concrete file state, entry, and other file name. -/
theorem C8_witness :
    log (fun _ => "old") "2026-10-12" JVal.null (logFileName "2026-10-12")
      = (fun _ => ("old" : String)) (logFileName "2026-10-12") ++ json_dumps JVal.null ++ "\n"
    ∧ log (fun _ => "old") "2026-10-12" JVal.null "other" = "old" :=
  ⟨(C8_log_appends (fun _ => "old") "2026-10-12" JVal.null).2.1,
   (C8_log_appends (fun _ => "old") "2026-10-12" JVal.null).2.2.2.2 "other" (by decide)⟩

/-- C4: every request handled by `/vet_join` or `/vet_message` - one for
which the handler returns its HTTP 200 response - produces exactly one log
entry, written by the one `log` call of the handler: the day's log file
gains exactly one newline (each serialized entry is newline-free, so that
is one complete line), its previous content stays in place as a prefix,
and no other file changes; this includes the case where the completion
call fails and the fallback verdict is used, since the fallback path still
returns a response and logs. -/
theorem C4_exactly_one_log_entry (fs : String → Option String)
    (backend : String → String → Except Unit String) (latency ts : Int)
    (today : String) (files : String → String) (jr : JoinReq) (mr : MsgReq)
    (resp resp2 : JVal) (nf nf2 : String → String) :
    (vet_join fs backend latency ts today files jr = .ok (resp, nf) →
      (nf (logFileName today)).data.count '\n'
          = (files (logFileName today)).data.count '\n' + 1
      ∧ (nf (logFileName today)).data.take (files (logFileName today)).data.length
          = (files (logFileName today)).data
      ∧ (∀ name, name ≠ logFileName today → nf name = files name))
    ∧ (vet_message fs backend latency ts today files mr = .ok (resp2, nf2) →
      (nf2 (logFileName today)).data.count '\n'
          = (files (logFileName today)).data.count '\n' + 1
      ∧ (nf2 (logFileName today)).data.take (files (logFileName today)).data.length
          = (files (logFileName today)).data
      ∧ (∀ name, name ≠ logFileName today → nf2 name = files name)) := by
  constructor
  · intro h
    unfold vet_join at h
    split at h
    · simp at h
    · split at h
      · simp at h
      · rw [Except.ok.injEq, Prod.mk.injEq] at h
        obtain ⟨h1, h2⟩ := h
        rw [← h2]
        exact log_appends_one_line files today _
  · intro h
    unfold vet_message at h
    split at h
    · simp at h
    · split at h
      · simp at h
      · rw [Except.ok.injEq, Prod.mk.injEq] at h
        obtain ⟨h1, h2⟩ := h
        rw [← h2]
        exact log_appends_one_line files today _

/-- Witness for C4 on the fallback path at concrete inputs: the failing
backend still yields exactly one appended line, and other files are
untouched. -/
theorem C4_witness :
    (log (fun _ => "") "2026-10-12" (.obj [("ts", .num 0), ("type", .str "join"),
        ("contact", .str "a"), ("decision", .str "reject"),
        ("reason", .str "parse error"), ("latency_ms", .num 0), ("fallback", .bool true)])
        (logFileName "2026-10-12")).data.count '\n'
      = (((fun _ => "") : String → String) (logFileName "2026-10-12")).data.count '\n' + 1
    ∧ log (fun _ => "") "2026-10-12" (.obj [("ts", .num 0), ("type", .str "join"),
        ("contact", .str "a"), ("decision", .str "reject"),
        ("reason", .str "parse error"), ("latency_ms", .num 0), ("fallback", .bool true)])
        "other" = "" :=
  ⟨((C4_exactly_one_log_entry (fun _ => some "P") (fun _ _ => .error ()) 0 0 "2026-10-12"
      (fun _ => "") ⟨"a", "b"⟩ ⟨"c", "d"⟩
      (.obj [("decision", .str "reject"), ("reason", .str "parse error")]) .null
      (log (fun _ => "") "2026-10-12" (.obj [("ts", .num 0), ("type", .str "join"),
        ("contact", .str "a"), ("decision", .str "reject"),
        ("reason", .str "parse error"), ("latency_ms", .num 0), ("fallback", .bool true)]))
      (fun _ => "")).1 rfl).1,
   ((C4_exactly_one_log_entry (fun _ => some "P") (fun _ _ => .error ()) 0 0 "2026-10-12"
      (fun _ => "") ⟨"a", "b"⟩ ⟨"c", "d"⟩
      (.obj [("decision", .str "reject"), ("reason", .str "parse error")]) .null
      (log (fun _ => "") "2026-10-12" (.obj [("ts", .num 0), ("type", .str "join"),
        ("contact", .str "a"), ("decision", .str "reject"),
        ("reason", .str "parse error"), ("latency_ms", .num 0), ("fallback", .bool true)]))
      (fun _ => "")).1 rfl).2.2 "other" (by decide)⟩

/-- C9: for a backend response whose first choice's content is valid JSON
but not an object (here the array `[1]`), the parse succeeds inside the try
block with fallback false, the subsequent `latency_ms` assignment outside
the try block raises, `ask_llm` propagates the error, and neither handler
returns HTTP 200. -/
theorem C9_non_object_content_raises :
    json_loads "[1]" = .ok (.arr [.num 1])
    ∧ tryParse (.ok "[1]") = (.arr [.num 1], false)
    ∧ ask_llm (.ok "[1]") 0 = .error ()
    ∧ vet_join (fun _ => some "P") (fun _ _ => .ok "[1]") 0 0 "2026-10-12" (fun _ => "")
        ⟨"alice", "hi"⟩ = .error ()
    ∧ vet_message (fun _ => some "P") (fun _ _ => .ok "[1]") 0 0 "2026-10-12" (fun _ => "")
        ⟨"bob", "hello"⟩ = .error () :=
  ⟨rfl, rfl, rfl, rfl, rfl⟩
